import Mathlib

/-!
Shallow embedding of the jvnc RFB server (src/main.rs, src/rfb.rs and
src/framebuffer.rs) together with proofs about the behaviour those files
implement.

Conventions of the embedding:
* a byte stream is a `List Nat` (each element is a byte value);
* machine integers are naturals, with explicit truncation (`% 256`,
  `% 2 ^ 32`) exactly where the source truncates;
* blocking socket reads become functions over the remaining input list;
  reading past the end of the list is the `UnexpectedEof` error of the
  source and is modelled as `Except.error "eof"`;
* a Rust panic (out-of-bounds slice index, out-of-bounds framebuffer
  read) is modelled by an explicit `panic`-like constructor or `none`;
* wall-clock time (`when()` in main.rs) is modelled by a list of clock
  readings carried in the session state, one entry consumed per call.
-/

namespace Jvnc

/-- Big-endian byte encoding of a 16-bit value, as produced by `write_u16`. -/
def u16be (n : Nat) : List Nat := [n / 256 % 256, n % 256]

/-- Big-endian byte encoding of a 32-bit value, as produced by `write_u32`. -/
def u32be (n : Nat) : List Nat :=
  [n / 2 ^ 24 % 256, n / 2 ^ 16 % 256, n / 2 ^ 8 % 256, n % 256]

/-- Big-endian byte encoding of a signed 32-bit value (`write_i32`),
two's complement. -/
def i32be (i : Int) : List Nat := u32be (i % 2 ^ 32).toNat

/-- Reinterpret an unsigned 32-bit value as a signed one (`get_i32` /
`read_i32` read big-endian bytes and produce a two's-complement i32). -/
def toInt32 (v : Nat) : Int :=
  if v < 2 ^ 31 then (v : Int) else (v : Int) - 2 ^ 32

/-- `read_u8`: take one byte off the input or fail like a read at EOF. -/
def readU8 : List Nat → Except String (Nat × List Nat)
  | [] => .error "eof"
  | b :: rest => .ok (b, rest)

/-- `read_u16`: two bytes, big endian. -/
def readU16 (input : List Nat) : Except String (Nat × List Nat) :=
  match readU8 input with
  | .error e => .error e
  | .ok (b0, r0) =>
    match readU8 r0 with
    | .error e => .error e
    | .ok (b1, r1) => .ok (b0 * 256 + b1, r1)

/-- `read_u32`: four bytes, big endian. -/
def readU32 (input : List Nat) : Except String (Nat × List Nat) :=
  match readU16 input with
  | .error e => .error e
  | .ok (h, r0) =>
    match readU16 r0 with
    | .error e => .error e
    | .ok (l, r1) => .ok (h * 65536 + l, r1)

/-- `read_i32`: four bytes, big endian, two's complement. -/
def readI32 (input : List Nat) : Except String (Int × List Nat) :=
  match readU32 input with
  | .error e => .error e
  | .ok (v, r0) => .ok (toInt32 v, r0)

/-- `read_exact` into a buffer of `n` bytes (the bytes themselves are
discarded by every caller in the source). -/
def readExact (n : Nat) (input : List Nat) : Except String (List Nat) :=
  if n ≤ input.length then .ok (input.drop n) else .error "eof"

/-! ## src/rfb.rs: the incremental frame parser -/

/-- `Security` (rfb.rs): only the `None` security type exists. -/
inductive Security where
  | nosec
deriving DecidableEq, Repr

/-- `Access` (rfb.rs). -/
inductive Access where
  | exclusive
  | shared
deriving DecidableEq, Repr

/-- `UpdateRequest` (rfb.rs). -/
structure UpdateRequest where
  incremental : Bool
  xpos : Nat
  ypos : Nat
  width : Nat
  height : Nat
deriving DecidableEq, Repr

/-- `Frame` (rfb.rs).  The protocol-version text is kept as its byte
list (every byte is < 128 when the frame is emitted). -/
inductive Frame where
  | protocolVersion (s : List Nat)
  | securitySelection (sec : Security)
  | clientInit (acc : Access)
  | setPixelFormat
  | setEncodings (encs : List Int)
  | keyEvent (down : Nat) (key : Nat)
  | pointerEvent (mask : Nat) (xpos ypos : Nat)
  | clientCutText
  | framebufferUpdateRequest (ur : UpdateRequest)
  | eof
deriving DecidableEq, Repr

/-- `State` (rfb.rs): the parser's protocol phase. -/
inductive PState where
  | version
  | securitySelection
  | clientInit
  | message
deriving DecidableEq, Repr

/-- `Rfb` (rfb.rs): parser state.  `buf` is the byte queue. -/
structure Rfb where
  buf : List Nat
  eof : Bool
  failed : Bool
  state : PState
deriving DecidableEq, Repr

/-- Result of one `parse` pull.  `panic` models a Rust panic (an
out-of-bounds index into the byte buffer); `ok`/`err` carry the parser
state after the pull (the source mutates `self`). -/
inductive ParseResult where
  | panic
  | ok (f : Option Frame) (r : Rfb)
  | err (msg : String) (r : Rfb)
deriving DecidableEq, Repr

/-- `SighFactoryExt::peek_u16` (rfb.rs): big-endian u16 at `offset`
without consuming.  The length check covers both indexed bytes, so the
reads are always in bounds. -/
def peek_u16 (buf : List Nat) (offset : Nat) : Option Nat :=
  if buf.length < offset + 2 then none
  else some (buf.getD offset 0 * 256 + buf.getD (offset + 1) 0)

/-- Result of `peek_u32`: `short` is the `None` return, `panic` is an
out-of-bounds index. -/
inductive Peek32 where
  | short
  | panic
  | val (v : Nat)
deriving DecidableEq, Repr

/-- `SighFactoryExt::peek_u32` (rfb.rs).  NOTE: the source checks
`self.len() < offset + 2` (not `offset + 4`) before indexing four
bytes, so the indexing of `buf[offset+2]` and `buf[offset+3]` can be
out of bounds, which in Rust panics; that outcome is `Peek32.panic`. -/
def peek_u32 (buf : List Nat) (offset : Nat) : Peek32 :=
  if buf.length < offset + 2 then .short
  else
    match buf.get? offset, buf.get? (offset + 1),
        buf.get? (offset + 2), buf.get? (offset + 3) with
    | some b0, some b1, some b2, some b3 =>
      .val (b0 * 2 ^ 24 + b1 * 2 ^ 16 + b2 * 2 ^ 8 + b3)
    | _, _, _, _ => .panic

/-- `Rfb::fail` (rfb.rs): the first failure records `failed` and
reports its own message; later calls report "earlier failure". -/
def Rfb.fail (r : Rfb) (msg : String) : ParseResult :=
  if r.failed then .err "earlier failure" r
  else .err msg { r with failed := true }

/-- The byte-consuming loop of the `State::Version` branch of
`Rfb::parse`: `get_u8` until a newline (byte 10); a byte ≥ 128 fails
after being consumed; collected text excludes the newline.  Running out
of bytes would be a `get_u8` panic (unreachable: the caller checked a
newline is present). -/
inductive VerRead where
  | panic
  | bad (rest : List Nat)
  | done (s rest : List Nat)
deriving DecidableEq, Repr

def readVersion (acc : List Nat) : List Nat → VerRead
  | [] => .panic
  | c :: rest =>
    if 128 ≤ c then .bad rest
    else if c = 10 then .done acc.reverse rest
    else readVersion (c :: acc) rest

/-- The `get_i32` loop of the `SetEncodings` branch: read `n`
big-endian i32 values from the front of `buf` (all in bounds by the
caller's length gate). -/
def readEncList : Nat → List Nat → List Int
  | 0, _ => []
  | n + 1, buf =>
    toInt32 (buf.getD 0 0 * 2 ^ 24 + buf.getD 1 0 * 2 ^ 16 +
        buf.getD 2 0 * 2 ^ 8 + buf.getD 3 0) :: readEncList n (buf.drop 4)

/-- `Rfb::parse` (rfb.rs): one pull.  Returns `ok none` for "need more
bytes", `ok (some f)` for an emitted frame, `err` for a failure,
`panic` for a Rust panic. -/
def Rfb.parse (r : Rfb) : ParseResult :=
  if r.failed then r.fail ""
  else if r.buf.isEmpty then
    if r.eof then .ok (some .eof) r else .ok none r
  else
    match r.state with
    | .version =>
      if r.buf.contains 10 = false then
        if r.buf.length > 100 then r.fail "handshake too long"
        else .ok none r
      else
        match readVersion [] r.buf with
        | .panic => .panic
        | .bad rest => Rfb.fail { r with buf := rest } "invalid handshake byte"
        | .done s rest =>
          .ok (some (.protocolVersion s))
            { r with buf := rest, state := .securitySelection }
    | .securitySelection =>
      match r.buf with
      | [] => .panic
      | sec :: rest =>
        if sec ≠ 1 then
          Rfb.fail { r with buf := rest } ("invalid security " ++ toString sec)
        else
          .ok (some (.securitySelection Security.nosec))
            { r with buf := rest, state := .clientInit }
    | .clientInit =>
      match r.buf with
      | [] => .panic
      | acc :: rest =>
        let a := if acc = 0 then Access.exclusive else Access.shared
        .ok (some (.clientInit a)) { r with buf := rest, state := .message }
    | .message =>
      match r.buf with
      | [] => .panic
      | b :: _ =>
        if b = 0 then
          /- SetPixelFormat: 1 id + 3 padding + 16 pixel format -/
          if r.buf.length < 1 + 3 + 16 then .ok none r
          else .ok (some .setPixelFormat) { r with buf := r.buf.drop (1 + 3 + 16) }
        else if b = 2 then
          /- SetEncodings -/
          match peek_u16 r.buf 2 with
          | none => .ok none r
          | some nenc =>
            if r.buf.length < 4 + nenc * 4 then .ok none r
            else
              let rest := r.buf.drop 4
              .ok (some (.setEncodings (readEncList nenc rest)))
                { r with buf := rest.drop (nenc * 4) }
        else if b = 3 then
          /- FramebufferUpdateRequest -/
          if r.buf.length < 10 then .ok none r
          else
            let l := r.buf
            let ur : UpdateRequest :=
              { incremental := l.getD 1 0 != 0
                xpos := l.getD 2 0 * 256 + l.getD 3 0
                ypos := l.getD 4 0 * 256 + l.getD 5 0
                width := l.getD 6 0 * 256 + l.getD 7 0
                height := l.getD 8 0 * 256 + l.getD 9 0 }
            .ok (some (.framebufferUpdateRequest ur)) { r with buf := l.drop 10 }
        else if b = 4 then
          /- KeyEvent: 1 id + 1 down + 2 padding + 4 keysym -/
          if r.buf.length < 1 + 1 + 2 + 4 then .ok none r
          else
            let l := r.buf
            .ok (some (.keyEvent (l.getD 1 0)
                (l.getD 4 0 * 2 ^ 24 + l.getD 5 0 * 2 ^ 16 +
                  l.getD 6 0 * 2 ^ 8 + l.getD 7 0)))
              { r with buf := l.drop 8 }
        else if b = 5 then
          /- PointerEvent: 1 id + 1 mask + 2 x + 2 y -/
          if r.buf.length < 1 + 1 + 2 + 2 then .ok none r
          else
            let l := r.buf
            .ok (some (.pointerEvent (l.getD 1 0)
                (l.getD 2 0 * 256 + l.getD 3 0)
                (l.getD 4 0 * 256 + l.getD 5 0)))
              { r with buf := l.drop 6 }
        else if b = 6 then
          /- ClientCutText: 1 id + 3 padding + 4 length + length bytes -/
          match peek_u32 r.buf (1 + 3) with
          | .short => .ok none r
          | .panic => .panic
          | .val nchar =>
            if r.buf.length < 1 + 3 + 4 + nchar then .ok none r
            else
              .ok (some .clientCutText)
                { r with buf := (r.buf.drop (1 + 3 + 4)).drop nchar }
        else
          r.fail ("invalid message " ++ toString b)

/-! ## src/framebuffer.rs: the shared pixel store -/

/-- `Framebuffer` (framebuffer.rs).  The raw `4·W·H`-byte region is
modelled as a list of `W·H` 32-bit words (`region.length =
width * height` for any framebuffer produced by `new`). -/
structure Framebuffer where
  width : Nat
  height : Nat
  region : List Nat
deriving DecidableEq, Repr

/-- `Framebuffer::new`: a zeroed region of `width * height` cells. -/
def Framebuffer.new (width height : Nat) : Framebuffer :=
  { width, height, region := List.replicate (width * height) 0 }

/-- `Framebuffer::put` (framebuffer.rs): out-of-bounds coordinates are a
silent no-op; otherwise pack `(r<<16)|(g<<8)|b` and store it at cell
`y*width + x`. -/
def Framebuffer.put (fb : Framebuffer) (x y red green blue : Nat) : Framebuffer :=
  if x ≥ fb.width ∨ y ≥ fb.height then fb
  else
    let pix := ((red % 256) <<< 16) ||| ((green % 256) <<< 8) ||| (blue % 256)
    { fb with region := fb.region.set (y * fb.width + x) pix }

/-- `Framebuffer::get` (framebuffer.rs): out-of-bounds coordinates
panic (`none`); otherwise unpack the cell, each channel truncated to a
byte (`as u8`). -/
def Framebuffer.get (fb : Framebuffer) (x y : Nat) : Option (Nat × Nat × Nat) :=
  if x ≥ fb.width ∨ y ≥ fb.height then none
  else
    let pix := fb.region.getD (y * fb.width + x) 0
    some ((pix >>> 16) % 256, (pix >>> 8) % 256, pix % 256)

/-! ## src/main.rs: the per-connection session and the acceptor

`process_socket` reads messages straight from the socket with blocking
reads; its serving loop has no timer, no pending-update slot, and no
exit other than an error (its final `shutdown` code is unreachable:
the loop has no `break`).  The mutable locals of the loop are: -/

/-- The serving-loop locals of `process_socket` (main.rs lines 79-86):
`extsize`, `gw`, `gh`, `colour`, `colourup`, `lastdraw`, plus the
modelled clock (future readings of `when()`). -/
structure SessionState where
  extsize : Bool
  gw : Nat
  gh : Nat
  colour : Nat
  colourup : Bool
  lastdraw : Nat
  clock : List Nat
deriving DecidableEq, Repr, Inhabited

/-- The session state at entry to the serving loop, given the first
`when()` reading (for `lastdraw`) and the later readings. -/
def initSession (t0 : Nat) (clock : List Nat) : SessionState :=
  { extsize := false, gw := 1024, gh := 768, colour := 0,
    colourup := true, lastdraw := t0, clock := clock }

/-- The 12-byte greeting `b"RFB 003.008\n"`. -/
def greeting : List Nat := [82, 70, 66, 32, 48, 48, 51, 46, 48, 48, 56, 10]

/-- The client version string the server accepts, `"RFB 003.008"`
(the handshake with its trailing newline removed). -/
def rfbVersionBytes : List Nat := [82, 70, 66, 32, 48, 48, 51, 46, 48, 48, 56]

/-- `read_handshake` (main.rs): read bytes until a newline; a byte
≥ 128 is an error; the returned text excludes the newline. -/
def readHandshake : List Nat → Except String (List Nat × List Nat)
  | [] => .error "eof"
  | b :: rest =>
    if 128 ≤ b then .error ("invalid byte " ++ toString b)
    else if b = 10 then .ok ([], rest)
    else
      match readHandshake rest with
      | .error e => .error e
      | .ok (s, rem) => .ok (b :: s, rem)

/-- The ServerInit bytes (main.rs lines 91-111): width, height, the
fixed 16-byte pixel format, name length 4, and the name `"jvnc"`. -/
def serverInitBytes (gw gh : Nat) : List Nat :=
  u16be gw ++ u16be gh ++
  [32, 24, 0, 1] ++ u16be 255 ++ u16be 255 ++ u16be 255 ++
  [16, 8, 0] ++ [0, 0, 0] ++ u32be 4 ++ [106, 118, 110, 99]

/-- One pixel row of the `screenbuf` fill (main.rs lines 218-234):
counter `c` starts at `(y % 2 == 0) as usize` and advances by 10 per
pixel; an even counter writes `[colour, 0, 0, 0]`, odd writes zeros. -/
def rowPixels (colour : Nat) : Nat → Nat → List Nat
  | _, 0 => []
  | c, n + 1 =>
    (if c % 2 = 0 then [colour, 0, 0, 0] else [0, 0, 0, 0]) ++
      rowPixels colour (c + 10) n

/-- Rows `0 .. gh-1` of the raw-update pixel payload, in order. -/
def screenRows (colour gw : Nat) : Nat → List Nat
  | 0 => []
  | y + 1 =>
    screenRows colour gw y ++
      rowPixels colour (if y % 2 = 0 then 1 else 0) gw

/-- The whole `screenbuf` payload for a raw FramebufferUpdate. -/
def screenbuf (gw gh colour : Nat) : List Nat := screenRows colour gw gh

/-- One iteration of the colour-breathing loop body
(main.rs lines 241-252), on the `(colour, colourup)` pair. -/
def stepColourOnce : Nat × Bool → Nat × Bool
  | (c, true) =>
    let c2 := c + 1
    (c2, if c2 > 240 then false else true)
  | (c, false) =>
    let c2 := c - 1
    (c2, if c2 < 10 then true else false)

/-- `delta / 4` iterations of the colour-breathing loop. -/
def stepColourN : Nat → Nat × Bool → Nat × Bool
  | 0, p => p
  | n + 1, p => stepColourN n (stepColourOnce p)

/-- The tail of the raw-update branch (main.rs lines 238-255): read
`when()`, and when more than 4 ms have passed since `lastdraw`, step
the colour once per 4 ms and record the new `lastdraw`. -/
def colourAdvance (s : SessionState) : SessionState :=
  let now := s.clock.headD 0
  let s1 := { s with clock := s.clock.tail }
  let delta := now - s1.lastdraw
  if delta > 4 then
    let p := stepColourN (delta / 4) (s1.colour, s1.colourup)
    { s1 with colour := p.1, colourup := p.2, lastdraw := now }
  else s1

/-- The per-screen `read_exact` loop of the SetDesktopSize branch
(main.rs lines 307-311): 16 bytes per screen, discarded. -/
def readScreens : Nat → List Nat → Except String (List Nat)
  | 0, input => .ok input
  | n + 1, input =>
    match readExact 16 input with
    | .error e => .error e
    | .ok rest => readScreens n rest

/-- The `read_i32` loop of the SetEncodings branch (main.rs lines
151-159): any encoding equal to -308 turns `extsize` on. -/
def readEncs : Nat → Bool → List Nat → Except String (Bool × List Nat)
  | 0, ext, input => .ok (ext, input)
  | n + 1, ext, input =>
    match readI32 input with
    | .error e => .error e
    | .ok (enc, rest) => readEncs n (if enc = -308 then true else ext) rest

/-- One iteration of the serving loop of `process_socket` (main.rs
lines 113-352): read a message type byte and handle the message.
The result is the updated locals, the unread input, and the bytes
written to the socket by this iteration; `Except.error` is a `bail!`
or a failed read, both of which end the session. -/
def processMessage (s : SessionState) (input : List Nat) :
    Except String (SessionState × List Nat × List Nat) :=
  match readU8 input with
  | .error e => .error e
  | .ok (b, r0) =>
    if b = 0 then
      /- SetPixelFormat: 3 padding bytes then 16 bytes, all discarded -/
      match readExact 3 r0 with
      | .error e => .error e
      | .ok r1 =>
        match readExact 16 r1 with
        | .error e => .error e
        | .ok r2 => .ok (s, r2, [])
    else if b = 2 then
      /- SetEncodings -/
      match readU8 r0 with
      | .error e => .error e
      | .ok (_, r1) =>
        match readU16 r1 with
        | .error e => .error e
        | .ok (nenc, r2) =>
          match readEncs nenc s.extsize r2 with
          | .error e => .error e
          | .ok (ext, r3) => .ok ({ s with extsize := ext }, r3, [])
    else if b = 3 then
      /- FramebufferUpdateRequest: the requested rectangle is read and
         then ignored; the reply always covers (0, 0, gw, gh). -/
      match readU8 r0 with
      | .error e => .error e
      | .ok (ib, r1) =>
        match readU16 r1 with
        | .error e => .error e
        | .ok (_xpos, r2) =>
          match readU16 r2 with
          | .error e => .error e
          | .ok (_ypos, r3) =>
            match readU16 r3 with
            | .error e => .error e
            | .ok (_width, r4) =>
              match readU16 r4 with
              | .error e => .error e
              | .ok (_height, r5) =>
                let increm : Bool := ib != 0
                if s.extsize && !increm then
                  .ok (s, r5,
                    [0, 0] ++ u16be 1 ++
                    u16be 0 ++ u16be 0 ++ u16be s.gw ++ u16be s.gh ++
                    i32be (-308) ++
                    [1, 0, 0, 0] ++
                    u32be 0 ++ u16be 0 ++ u16be 0 ++ u16be s.gw ++
                    u16be s.gh ++ u32be 0)
                else
                  .ok (colourAdvance s, r5,
                    [0, 0] ++ u16be 1 ++
                    u16be 0 ++ u16be 0 ++ u16be s.gw ++ u16be s.gh ++
                    i32be 0 ++
                    screenbuf s.gw s.gh s.colour)
    else if b = 4 then
      /- KeyEvent: down flag, 2 padding, keysym; all ignored -/
      match readU8 r0 with
      | .error e => .error e
      | .ok (_down, r1) =>
        match readExact 2 r1 with
        | .error e => .error e
        | .ok r2 =>
          match readU32 r2 with
          | .error e => .error e
          | .ok (_key, r3) => .ok (s, r3, [])
    else if b = 5 then
      /- PointerEvent: mask, x, y; all ignored -/
      match readU8 r0 with
      | .error e => .error e
      | .ok (_mask, r1) =>
        match readU16 r1 with
        | .error e => .error e
        | .ok (_x, r2) =>
          match readU16 r2 with
          | .error e => .error e
          | .ok (_y, r3) => .ok (s, r3, [])
    else if b = 6 then
      /- ClientCutText: 3 padding, length, then length discarded bytes -/
      match readExact 3 r0 with
      | .error e => .error e
      | .ok r1 =>
        match readU32 r1 with
        | .error e => .error e
        | .ok (len, r2) =>
          match readExact len r2 with
          | .error e => .error e
          | .ok r3 => .ok (s, r3, [])
    else if b = 251 then
      /- SetDesktopSize -/
      match readU8 r0 with
      | .error e => .error e
      | .ok (_pad, r1) =>
        match readU16 r1 with
        | .error e => .error e
        | .ok (nw, r2) =>
          match readU16 r2 with
          | .error e => .error e
          | .ok (nh, r3) =>
            match readU8 r3 with
            | .error e => .error e
            | .ok (nscreens, r4) =>
              match readU8 r4 with
              | .error e => .error e
              | .ok (_pad2, r5) =>
                match readScreens nscreens r5 with
                | .error e => .error e
                | .ok r6 =>
                  if 10000 ≤ nw ∨ 10000 ≤ nh then
                    .error ("illegal resolution: " ++ toString nw ++ "x" ++
                      toString nh)
                  else
                    let s2 := { s with gw := nw, gh := nh }
                    .ok (s2, r6,
                      [0, 0] ++ u16be 1 ++
                      u16be 1 ++ u16be 0 ++ u16be s2.gw ++ u16be s2.gh ++
                      i32be (-308) ++
                      [1, 0, 0, 0] ++
                      u32be 0 ++ u16be 0 ++ u16be 0 ++ u16be s2.gw ++
                      u16be s2.gh ++ u32be 0)
    else
      .error ("unknown type " ++ toString b)

/-- The serving loop: iterate `processMessage`, concatenating output,
until an error ends the session (the loop has no other exit; with the
whole client byte stream given, exhausting it is the EOF read error).
`fuel` bounds the number of iterations; every theorem instantiates it
above the number of messages in its input. -/
def serveLoop : Nat → SessionState → List Nat → List Nat × Option String
  | 0, _, _ => ([], some "fuel")
  | fuel + 1, s, input =>
    match processMessage s input with
    | .error e => ([], some e)
    | .ok (s2, rest, out) =>
      let r := serveLoop fuel s2 rest
      (out ++ r.1, r.2)

/-- `process_socket` (main.rs): greeting, handshake, security, client
init, ServerInit, then the serving loop.  Returns the bytes written to
the socket and the error that ended the session (`none` would be the
unreachable clean return). -/
def processSocket (fuel : Nat) (clock : List Nat) (input : List Nat) :
    List Nat × Option String :=
  match readHandshake input with
  | .error e => (greeting, some e)
  | .ok (chs, r0) =>
    if chs ≠ rfbVersionBytes then
      (greeting, some ("invalid handshake: " ++ toString chs))
    else
      match readU8 r0 with
      | .error e => (greeting ++ [1, 1], some e)
      | .ok (b, r1) =>
        if b ≠ 1 then
          (greeting ++ [1, 1], some ("invalid security selection: " ++ toString b))
        else
          match readU8 r1 with
          | .error e => (greeting ++ [1, 1] ++ [0, 0, 0, 0], some e)
          | .ok (_access, r2) =>
            let s0 := initSession (clock.headD 0) clock.tail
            let r := serveLoop fuel s0 r2
            (greeting ++ [1, 1] ++ [0, 0, 0, 0] ++
              serverInitBytes s0.gw s0.gh ++ r.1, r.2)

/-- `main` (main.rs lines 359-369): accept connections one at a time;
`process_socket(socket).await?` runs each session inline and the `?`
propagates a session error out of the accept loop, ending `main`.
The result collects the per-session outputs of the sessions that ran
and the propagated error, if any. -/
def mainLoop (fuel : Nat) (clock : List Nat) :
    List (List Nat) → List (List Nat) × Option String
  | [] => ([], none)
  | c :: rest =>
    match processSocket fuel clock c with
    | (out, some e) => ([out], some e)
    | (out, none) =>
      let rr := mainLoop fuel clock rest
      (out :: rr.1, rr.2)

/-! ## Observation helpers for one serving-loop step -/

/-- Did the serving-loop step succeed (session continues)? -/
def stepOk (r : Except String (SessionState × List Nat × List Nat)) : Bool :=
  match r with
  | .ok _ => true
  | .error _ => false

/-- Bytes written to the socket by the step (empty on error). -/
def stepOut (r : Except String (SessionState × List Nat × List Nat)) : List Nat :=
  match r with
  | .ok (_, _, o) => o
  | .error _ => []

/-- Input left unread by the step. -/
def stepRest (r : Except String (SessionState × List Nat × List Nat)) : List Nat :=
  match r with
  | .ok (_, rest, _) => rest
  | .error _ => []

/-- Session state after the step (`d` on error). -/
def stepState (r : Except String (SessionState × List Nat × List Nat))
    (d : SessionState) : SessionState :=
  match r with
  | .ok (s, _, _) => s
  | .error _ => d

/-! ## Helper lemmas -/

theorem colourAdvance_extsize (s : SessionState) :
    (colourAdvance s).extsize = s.extsize := by
  unfold colourAdvance
  dsimp only
  split <;> rfl

theorem colourAdvance_gw (s : SessionState) : (colourAdvance s).gw = s.gw := by
  unfold colourAdvance
  dsimp only
  split <;> rfl

theorem colourAdvance_gh (s : SessionState) : (colourAdvance s).gh = s.gh := by
  unfold colourAdvance
  dsimp only
  split <;> rfl

/-- Decoding inverts encoding for 16-bit values. -/
theorem readU16_u16be (n : Nat) (rest : List Nat) (h : n < 65536) :
    readU16 (u16be n ++ rest) = .ok (n, rest) := by
  simp only [u16be, List.cons_append, List.nil_append, readU16, readU8]
  have : n / 256 % 256 * 256 + n % 256 = n := by omega
  rw [this]

/-- Unconditional form: decoding an encoded 16-bit value truncates. -/
theorem readU16_u16be_mod (n : Nat) (rest : List Nat) :
    readU16 (u16be n ++ rest) = .ok (n % 65536, rest) := by
  simp only [u16be, List.cons_append, List.nil_append, readU16, readU8]
  have : n / 256 % 256 * 256 + n % 256 = n % 65536 := by omega
  rw [this]

/-- The per-screen read loop consumes exactly `16 * n` bytes. -/
theorem readScreens_append (n : Nat) (screens rest : List Nat)
    (h : screens.length = 16 * n) :
    readScreens n (screens ++ rest) = .ok rest := by
  induction n generalizing screens with
  | zero =>
    have : screens = [] := List.length_eq_zero.mp (by omega)
    simp [readScreens, this]
  | succ m ih =>
    have h16 : 16 ≤ screens.length := by omega
    simp only [readScreens, readExact]
    rw [if_pos (by simp only [List.length_append]; omega)]
    rw [List.drop_append_eq_append_drop]
    rw [show 16 - screens.length = 0 by omega, List.drop_zero]
    exact ih _ (by simp only [List.length_drop]; omega)

/-- The raw-update branch of the serving loop: any
FramebufferUpdateRequest, when the ExtendedDesktopSize reply is not
armed, is answered at once with a full-screen raw rectangle; the
requested coordinates are dropped. -/
theorem processUpdateRaw (t : SessionState) (hext : t.extsize = false)
    (i x1 x2 y1 y2 w1 w2 h1 h2 : Nat) (rest : List Nat) :
    processMessage t ([3, i, x1, x2, y1, y2, w1, w2, h1, h2] ++ rest) =
      .ok (colourAdvance t, rest,
        [0, 0] ++ u16be 1 ++ u16be 0 ++ u16be 0 ++ u16be t.gw ++ u16be t.gh ++
          i32be 0 ++ screenbuf t.gw t.gh t.colour) := by
  simp [processMessage, readU8, readU16, hext]

/-- Disjoint bitwise-or is addition: or-ing a value shifted past `n`
bits with a value below `2 ^ n` is their sum. -/
theorem mul_two_pow_lor (a : Nat) :
    ∀ (n b : Nat), b < 2 ^ n → (a * 2 ^ n) ||| b = a * 2 ^ n + b := by
  intro n
  induction n with
  | zero =>
    intro b hb
    have hb0 : b = 0 := by omega
    subst hb0
    simp
  | succ n ih =>
    intro b hb
    have hb2 : b.div2 < 2 ^ n := by
      rw [Nat.div2_val, Nat.div_lt_iff_lt_mul (by norm_num)]
      calc b < 2 ^ (n + 1) := hb
        _ = 2 ^ n * 2 := by ring
    have h1 : Nat.bit false (a * 2 ^ n) = a * 2 ^ (n + 1) := by
      rw [Nat.bit_val]
      simp [Bool.toNat]
      ring
    calc (a * 2 ^ (n + 1)) ||| b
        = Nat.bit false (a * 2 ^ n) ||| Nat.bit b.bodd b.div2 := by
          rw [h1, Nat.bit_decomp]
      _ = Nat.bit (false || b.bodd) ((a * 2 ^ n) ||| b.div2) :=
          Nat.lor_bit _ _ _ _
      _ = Nat.bit b.bodd (a * 2 ^ n + b.div2) := by
          rw [Bool.false_or, ih _ hb2]
      _ = 2 * (a * 2 ^ n + b.div2) + (Nat.bodd b).toNat := Nat.bit_val _ _
      _ = a * 2 ^ (n + 1) + ((Nat.bodd b).toNat + 2 * Nat.div2 b) := by ring
      _ = a * 2 ^ (n + 1) + b := by rw [Nat.bodd_add_div2]

/-- The packed pixel word of `Framebuffer::put`, as plain arithmetic. -/
theorem pix_val (r g b : Nat) (hg : g < 256) (hb : b < 256) :
    ((r <<< 16) ||| (g <<< 8)) ||| b = r * 65536 + g * 256 + b := by
  have e1 : r <<< 16 = r * 2 ^ 16 := Nat.shiftLeft_eq r 16
  have e2 : g <<< 8 = g * 2 ^ 8 := Nat.shiftLeft_eq g 8
  have h1 : (r * 2 ^ 16) ||| (g * 2 ^ 8) = r * 2 ^ 16 + g * 2 ^ 8 :=
    mul_two_pow_lor r 16 (g * 2 ^ 8) (by norm_num; omega)
  have h2 : (r * 2 ^ 16 + g * 2 ^ 8) ||| b = r * 2 ^ 16 + g * 2 ^ 8 + b := by
    have e3 : r * 2 ^ 16 + g * 2 ^ 8 = (r * 256 + g) * 2 ^ 8 := by ring
    rw [e3, mul_two_pow_lor (r * 256 + g) 8 b (by norm_num; omega)]
  rw [e1, e2, h1, h2]
  norm_num

/-- Setting then reading the same in-bounds index gives the value set. -/
theorem getD_set_self {α : Type} (l : List α) (n : Nat) (a d : α)
    (h : n < l.length) : (l.set n a).getD n d = a := by
  induction l generalizing n with
  | nil => simp at h
  | cons x xs ih =>
    cases n with
    | zero => rfl
    | succ m => exact ih m (by simp at h; omega)

/-! ## Claims -/

/-- Claim C6 (code_bug): the claim says every prefix of a ClientCutText
message shorter than `8 + length` bytes makes a parse pull return "need
more bytes" without crashing.  In fact `peek_u32` checks only
`offset + 2` bytes before indexing four, so with exactly 6 or 7 bytes
buffered (message ID 6 plus 5 or 6 more), `self.buf[offset + 2]` or
`self.buf[offset + 3]` indexes out of bounds and the process panics. -/
theorem clientCutText_short_prefix_panics :
    Rfb.parse ⟨[6, 0, 0, 0, 0, 0], false, false, PState.message⟩ =
      ParseResult.panic ∧
    Rfb.parse ⟨[6, 0, 0, 0, 0, 0, 0], false, false, PState.message⟩ =
      ParseResult.panic :=
  ⟨rfl, rfl⟩

/-- A `Rfb::fail` call never produces a frame result. -/
theorem fail_ne_ok (t : Rfb) (m : String) (f : Option Frame) (t' : Rfb) :
    Rfb.fail t m ≠ ParseResult.ok f t' := by
  unfold Rfb.fail
  split <;> simp

/-- Claim C7 (confirmed): a parse pull that returns "need more bytes"
(`ok none`) leaves the parser's byte buffer exactly as it was. -/
theorem parser_non_consumption (r r' : Rfb)
    (h : r.parse = ParseResult.ok none r') : r'.buf = r.buf := by
  unfold Rfb.parse at h
  repeat' split at h
  all_goals first
    | exact ParseResult.noConfusion h
    | exact absurd h (fail_ne_ok _ _ _ _)
    | (injection h with h1 h2
       first
         | exact Option.noConfusion h1
         | (subst h2; rfl))

/-- Witness for C7 at a concrete parser state: a 1-byte
FramebufferUpdateRequest prefix yields "need more bytes". -/
theorem parser_non_consumption_witness :
    Rfb.parse ⟨[3], false, false, PState.message⟩ =
      ParseResult.ok none ⟨[3], false, false, PState.message⟩ ∧
    (⟨[3], false, false, PState.message⟩ : Rfb).buf = [3] :=
  ⟨by decide,
    parser_non_consumption ⟨[3], false, false, PState.message⟩
      ⟨[3], false, false, PState.message⟩ (by decide)⟩

/-- Claim C8 (confirmed): once `failed` is set, every pull returns the
"earlier failure" error and leaves the state (still failed) unchanged,
so no frame is ever produced again. -/
theorem parser_sticky_failure (r : Rfb) (h : r.failed = true) :
    r.parse = ParseResult.err "earlier failure" r := by
  unfold Rfb.parse Rfb.fail
  simp [h]

/-- Witness for C8 at a concrete failed parser state. -/
theorem parser_sticky_failure_witness :
    (⟨[1, 2, 3], false, true, PState.message⟩ : Rfb).failed = true ∧
    Rfb.parse ⟨[1, 2, 3], false, true, PState.message⟩ =
      ParseResult.err "earlier failure"
        ⟨[1, 2, 3], false, true, PState.message⟩ :=
  ⟨rfl, parser_sticky_failure ⟨[1, 2, 3], false, true, PState.message⟩ rfl⟩

/-- Claim C9 (confirmed): for in-bounds coordinates on a well-formed
framebuffer (its region holds `width * height` cells, as `new`
allocates), `put` followed by `get` at the same coordinates returns
exactly the colour written. -/
theorem framebuffer_put_get (fb : Framebuffer) (x y red green blue : Nat)
    (hx : x < fb.width) (hy : y < fb.height)
    (hlen : fb.region.length = fb.width * fb.height)
    (hr : red < 256) (hg : green < 256) (hb : blue < 256) :
    (fb.put x y red green blue).get x y = some (red, green, blue) := by
  have hcond : ¬(x ≥ fb.width ∨ y ≥ fb.height) := by omega
  have hidx : y * fb.width + x < fb.region.length := by
    rw [hlen]
    calc y * fb.width + x < y * fb.width + fb.width := by omega
      _ = (y + 1) * fb.width := by ring
      _ ≤ fb.height * fb.width := Nat.mul_le_mul_right _ (by omega)
      _ = fb.width * fb.height := Nat.mul_comm _ _
  unfold Framebuffer.put Framebuffer.get
  rw [if_neg hcond]
  dsimp only
  rw [if_neg hcond]
  rw [getD_set_self _ _ _ _ hidx]
  rw [Nat.mod_eq_of_lt hr, Nat.mod_eq_of_lt hg, Nat.mod_eq_of_lt hb]
  rw [pix_val red green blue hg hb]
  rw [Nat.shiftRight_eq_div_pow, Nat.shiftRight_eq_div_pow]
  norm_num
  refine ⟨by omega, by omega, by omega⟩

/-- Claim C1 counterexample: from the post-handshake state (resized to
2 by 2 by a SetDesktopSize so the replies are small), two
FramebufferUpdateRequests with distinct rectangles each receive an
immediate FramebufferUpdate — two replies, not one, and each reply's
rectangle is the full screen (0, 0, 2, 2), not the second request's
rectangle (1, 1, 2, 2).  The claimed pending-update slot does not
exist: no reply is ever deferred. -/
theorem update_request_coalescing_cx :
    processMessage (initSession 0 [0, 0])
        ([251, 0, 0, 2, 0, 2, 0, 0] ++
          [3, 1, 0, 0, 0, 0, 0, 1, 0, 1] ++ [3, 0, 0, 1, 0, 1, 0, 2, 0, 2]) =
      Except.ok (⟨false, 2, 2, 0, true, 0, [0, 0]⟩,
        [3, 1, 0, 0, 0, 0, 0, 1, 0, 1] ++ [3, 0, 0, 1, 0, 1, 0, 2, 0, 2],
        [0, 0, 0, 1, 0, 1, 0, 0, 0, 2, 0, 2, 255, 255, 254, 204, 1, 0, 0, 0,
          0, 0, 0, 0, 0, 0, 0, 0, 0, 2, 0, 2, 0, 0, 0, 0]) ∧
    processMessage ⟨false, 2, 2, 0, true, 0, [0, 0]⟩
        ([3, 1, 0, 0, 0, 0, 0, 1, 0, 1] ++ [3, 0, 0, 1, 0, 1, 0, 2, 0, 2]) =
      Except.ok (⟨false, 2, 2, 0, true, 0, [0]⟩,
        [3, 0, 0, 1, 0, 1, 0, 2, 0, 2],
        [0, 0, 0, 1, 0, 0, 0, 0, 0, 2, 0, 2, 0, 0, 0, 0,
          0, 0, 0, 0, 0, 0, 0, 0, 0, 0, 0, 0, 0, 0, 0, 0]) ∧
    processMessage ⟨false, 2, 2, 0, true, 0, [0]⟩
        [3, 0, 0, 1, 0, 1, 0, 2, 0, 2] =
      Except.ok (⟨false, 2, 2, 0, true, 0, []⟩, [],
        [0, 0, 0, 1, 0, 0, 0, 0, 0, 2, 0, 2, 0, 0, 0, 0,
          0, 0, 0, 0, 0, 0, 0, 0, 0, 0, 0, 0, 0, 0, 0, 0]) ∧
    ([0, 0, 0, 1, 0, 0, 0, 0, 0, 2, 0, 2, 0, 0, 0, 0] : List Nat) ≠
      [0, 0, 0, 1, 0, 1, 0, 1, 0, 2, 0, 2, 0, 0, 0, 0] :=
  ⟨by rfl, by rfl, by rfl, by decide⟩

/-- Claim C1 (corrected): there is no pending-update slot and no
coalescing.  Whenever `extsize` is off, each of two back-to-back
FramebufferUpdateRequests is answered immediately by its own
FramebufferUpdate whose rectangle is the full screen
`(0, 0, gw, gh)` — regardless of either requested rectangle. -/
theorem update_requests_each_answered_immediately (s : SessionState)
    (hext : s.extsize = false)
    (i q1 q2 q3 q4 q5 q6 q7 q8 j p1 p2 p3 p4 p5 p6 p7 p8 : Nat) :
    stepOk (processMessage s ([3, i, q1, q2, q3, q4, q5, q6, q7, q8] ++
      [3, j, p1, p2, p3, p4, p5, p6, p7, p8])) = true ∧
    stepRest (processMessage s ([3, i, q1, q2, q3, q4, q5, q6, q7, q8] ++
      [3, j, p1, p2, p3, p4, p5, p6, p7, p8])) =
      [3, j, p1, p2, p3, p4, p5, p6, p7, p8] ∧
    (stepOut (processMessage s ([3, i, q1, q2, q3, q4, q5, q6, q7, q8] ++
      [3, j, p1, p2, p3, p4, p5, p6, p7, p8]))).take 12 =
      [0, 0, 0, 1, 0, 0, 0, 0] ++ u16be s.gw ++ u16be s.gh ∧
    stepOk (processMessage
      (stepState (processMessage s ([3, i, q1, q2, q3, q4, q5, q6, q7, q8] ++
        [3, j, p1, p2, p3, p4, p5, p6, p7, p8])) s)
      [3, j, p1, p2, p3, p4, p5, p6, p7, p8]) = true ∧
    (stepOut (processMessage
      (stepState (processMessage s ([3, i, q1, q2, q3, q4, q5, q6, q7, q8] ++
        [3, j, p1, p2, p3, p4, p5, p6, p7, p8])) s)
      [3, j, p1, p2, p3, p4, p5, p6, p7, p8])).take 12 =
      [0, 0, 0, 1, 0, 0, 0, 0] ++ u16be s.gw ++ u16be s.gh := by
  have e1 := processUpdateRaw s hext i q1 q2 q3 q4 q5 q6 q7 q8
    [3, j, p1, p2, p3, p4, p5, p6, p7, p8]
  have hext2 : (colourAdvance s).extsize = false := by
    rw [colourAdvance_extsize, hext]
  have e2 := processUpdateRaw (colourAdvance s) hext2 j p1 p2 p3 p4 p5 p6 p7 p8 []
  rw [List.append_nil] at e2
  refine ⟨?_, ?_, ?_, ?_, ?_⟩
  · rw [e1]
    rfl
  · rw [e1]
    rfl
  · rw [e1]
    rfl
  · rw [e1]
    simp only [stepState]
    rw [e2]
    rfl
  · rw [e1]
    simp only [stepState]
    rw [e2]
    simp only [stepOut]
    rw [colourAdvance_gw, colourAdvance_gh]
    rfl

/-- Witness for C1 (corrected) at the concrete post-handshake state. -/
theorem update_requests_each_answered_immediately_witness :
    (initSession 0 [0, 0]).extsize = false ∧
    (stepOk (processMessage (initSession 0 [0, 0])
        ([3, 1, 0, 0, 0, 0, 0, 16, 0, 16] ++
          [3, 0, 0, 1, 0, 1, 0, 32, 0, 32])) = true ∧
      stepRest (processMessage (initSession 0 [0, 0])
        ([3, 1, 0, 0, 0, 0, 0, 16, 0, 16] ++
          [3, 0, 0, 1, 0, 1, 0, 32, 0, 32])) =
        [3, 0, 0, 1, 0, 1, 0, 32, 0, 32] ∧
      (stepOut (processMessage (initSession 0 [0, 0])
        ([3, 1, 0, 0, 0, 0, 0, 16, 0, 16] ++
          [3, 0, 0, 1, 0, 1, 0, 32, 0, 32]))).take 12 =
        [0, 0, 0, 1, 0, 0, 0, 0, 4, 0, 3, 0] ∧
      stepOk (processMessage
        (stepState (processMessage (initSession 0 [0, 0])
          ([3, 1, 0, 0, 0, 0, 0, 16, 0, 16] ++
            [3, 0, 0, 1, 0, 1, 0, 32, 0, 32])) (initSession 0 [0, 0]))
        [3, 0, 0, 1, 0, 1, 0, 32, 0, 32]) = true ∧
      (stepOut (processMessage
        (stepState (processMessage (initSession 0 [0, 0])
          ([3, 1, 0, 0, 0, 0, 0, 16, 0, 16] ++
            [3, 0, 0, 1, 0, 1, 0, 32, 0, 32])) (initSession 0 [0, 0]))
        [3, 0, 0, 1, 0, 1, 0, 32, 0, 32])).take 12 =
        [0, 0, 0, 1, 0, 0, 0, 0, 4, 0, 3, 0]) :=
  ⟨rfl, update_requests_each_answered_immediately (initSession 0 [0, 0]) rfl
    1 0 0 0 0 0 16 0 16 0 0 1 0 1 0 32 0 32⟩

/-- Claim C2 counterexample: the request x = 10000, y = 10000,
w = 10000, h = 10000 (bytes `27 10` each) is answered with the
full-screen rectangle (0, 0, 1024, 768) — bytes
`00 00 00 00 04 00 03 00` — not with the clamped rectangle
`x = W-1, y = H-1, w = W, h = H` the claim requires (which at the
code's 1024 by 768 screen would be `03 FF 02 FF 04 00 03 00`, and at
the spec's 512 by 384 screen `01 FF 01 7F 02 00 01 80`). -/
theorem update_request_clamping_cx :
    stepOk (processMessage (initSession 0 [0])
      [3, 0, 39, 16, 39, 16, 39, 16, 39, 16]) = true ∧
    (stepOut (processMessage (initSession 0 [0])
      [3, 0, 39, 16, 39, 16, 39, 16, 39, 16])).take 16 =
      [0, 0, 0, 1, 0, 0, 0, 0, 4, 0, 3, 0, 0, 0, 0, 0] ∧
    ([0, 0, 0, 1, 0, 0, 0, 0, 4, 0, 3, 0, 0, 0, 0, 0] : List Nat) ≠
      [0, 0, 0, 1, 3, 255, 2, 255, 4, 0, 3, 0, 0, 0, 0, 0] :=
  ⟨rfl, by rfl, by decide⟩

/-- Claim C2 (corrected): no clamping is performed at all.  The server
ignores the requested rectangle entirely: whenever `extsize` is off,
the reply to any FramebufferUpdateRequest is the full-screen raw
rectangle (0, 0, gw, gh) followed by the generated pixel rows. -/
theorem update_reply_rect_ignores_request (s : SessionState)
    (hext : s.extsize = false) (i x1 x2 y1 y2 w1 w2 h1 h2 : Nat)
    (rest : List Nat) :
    processMessage s ([3, i, x1, x2, y1, y2, w1, w2, h1, h2] ++ rest) =
      Except.ok (colourAdvance s, rest,
        [0, 0, 0, 1, 0, 0, 0, 0] ++ u16be s.gw ++ u16be s.gh ++
          [0, 0, 0, 0] ++ screenbuf s.gw s.gh s.colour) := by
  rw [processUpdateRaw s hext]
  rfl

/-- Witness for C2 (corrected): the clamping scenario's request
(10000, 10000, 10000, 10000) at the concrete post-handshake state. -/
theorem update_reply_rect_ignores_request_witness :
    (initSession 0 [5]).extsize = false ∧
    processMessage (initSession 0 [5])
        ([3, 0, 39, 16, 39, 16, 39, 16, 39, 16] ++ []) =
      Except.ok (colourAdvance (initSession 0 [5]), [],
        [0, 0, 0, 1, 0, 0, 0, 0] ++ u16be 1024 ++ u16be 768 ++
          [0, 0, 0, 0] ++ screenbuf 1024 768 0) :=
  ⟨rfl, update_reply_rect_ignores_request (initSession 0 [5]) rfl
    0 39 16 39 16 39 16 39 16 []⟩

/-- Claim C3 counterexample: the ServerInit body written after a happy
handshake starts `04 00 03 00 ...` (width 1024, height 768), not the
claimed `02 00 01 80 ...` (width 512, height 384).  The 18 dropped
bytes are the greeting, the security offer and the security result. -/
theorem serverinit_bytes_cx :
    ((processSocket 1 [0] (greeting ++ [1, 1])).1.drop 18).take 20 =
      [4, 0, 3, 0, 32, 24, 0, 1, 0, 255, 0, 255, 0, 255, 16, 8, 0, 0, 0, 0] ∧
    ((processSocket 1 [0] (greeting ++ [1, 1])).1.drop 18).take 20 ≠
      [2, 0, 1, 128, 32, 24, 0, 1, 0, 255, 0, 255, 0, 255, 16, 8, 0, 0, 0, 0] := by
  decide

/-- Claim C3 (corrected): after a successful handshake the server
writes ServerInit advertising width 1024 and height 768, then the
fixed pixel format, name length 4 and the name "jvnc"; the whole
session transcript for a client that stops after ClientInit is the
greeting, the security offer `01 01`, the security result
`00 00 00 00`, and this ServerInit; the session then ends with the
EOF read error. -/
theorem serverinit_advertises_1024x768 :
    processSocket 1 [0] (greeting ++ [1, 1]) =
      (greeting ++ [1, 1] ++ [0, 0, 0, 0] ++
        [4, 0, 3, 0, 32, 24, 0, 1, 0, 255, 0, 255, 0, 255, 16, 8, 0, 0, 0, 0,
          0, 0, 0, 4, 106, 118, 110, 99], some "eof") := by
  decide

/-- Claim C4 counterexample: the KeyEvent `04 01 .. .. 00 00 00 71`
(down = 1, keysym = 113, the q key) does not close the session: the
step succeeds, consumes exactly the 8-byte message, changes nothing
and emits nothing, and the following message is processed normally —
here a later FramebufferUpdateRequest is still answered (the serving
loop's output begins with its FramebufferUpdate header bytes).
Likewise keysym 122 (z) sets no colour mode: the state is unchanged. -/
theorem quit_key_cx :
    processMessage (initSession 0 [])
        ([4, 1, 0, 0, 0, 0, 0, 113] ++ [5, 9, 0, 1, 0, 2]) =
      Except.ok (initSession 0 [], [5, 9, 0, 1, 0, 2], []) ∧
    processMessage (initSession 0 []) [5, 9, 0, 1, 0, 2] =
      Except.ok (initSession 0 [], [], []) ∧
    processMessage (initSession 0 []) [4, 1, 0, 0, 0, 0, 0, 122] =
      Except.ok (initSession 0 [], [], []) ∧
    (serveLoop 3 (initSession 0 [0])
      ([4, 1, 0, 0, 0, 0, 0, 113] ++ [3, 1, 0, 0, 0, 0, 0, 1, 0, 1])).1.take 2 =
      [0, 0] :=
  ⟨by rfl, by rfl, by rfl, by rfl⟩

/-- Claim C4 (corrected): every KeyEvent — any down flag, any keysym,
113 (q) and the colour keysyms included — is read and discarded: the
step emits no bytes, leaves the session state untouched and the
session continues with the rest of the input.  There is no quit key
and no colour-mode cell in this server. -/
theorem keyevents_ignored (s : SessionState) (d p1 p2 k1 k2 k3 k4 : Nat)
    (rest : List Nat) :
    processMessage s ([4, d, p1, p2, k1, k2, k3, k4] ++ rest) =
      Except.ok (s, rest, []) := rfl

/-- Claim C5 counterexample: two queued connections whose clients send
nothing.  The first session fails with the EOF read error, the
acceptor propagates it (`process_socket(socket).await?`) and
terminates with that error; only one session's output exists and the
second connection is never served. -/
theorem acceptor_cx :
    mainLoop 1 [0] [[], []] = ([greeting], some "eof") ∧
    (mainLoop 1 [0] [[], []]).2 ≠ none ∧
    (mainLoop 1 [0] [[], []]).1.length = 1 := by
  refine ⟨by decide, by decide, by decide⟩

/-- Claim C5 (corrected): the accept loop runs each session inline and
to completion before the next accept, and a session error propagates
out of the loop: whenever the first connection's session ends with an
error — which a finite client stream always does — the acceptor
terminates with that same error and the remaining queued connections
are never examined. -/
theorem acceptor_dies_with_first_session (fuel : Nat) (clock : List Nat)
    (c : List Nat) (rest : List (List Nat)) (e : String)
    (h : (processSocket fuel clock c).2 = some e) :
    mainLoop fuel clock (c :: rest) =
      ([(processSocket fuel clock c).1], some e) := by
  rcases hps : processSocket fuel clock c with ⟨out, err⟩
  rw [hps] at h
  simp only at h
  subst h
  simp [mainLoop, hps]

/-- Witness for C5 (corrected): a silent first connection with one
more connection queued. -/
theorem acceptor_dies_with_first_session_witness :
    (processSocket 1 [0] []).2 = some "eof" ∧
    mainLoop 1 [0] ([] :: [[1, 2, 3]]) =
      ([(processSocket 1 [0] []).1], some "eof") :=
  ⟨by decide,
    acceptor_dies_with_first_session 1 [0] [] [[1, 2, 3]] "eof" (by decide)⟩

/-- Claim C10 (confirmed): a SetDesktopSize message (ID 251) is
handled, not rejected as unknown: the server reads the padding byte,
the new width and height, the screen count and its padding, and the
16-byte block of every screen; it then fails with the "illegal
resolution" error exactly when the requested width or height is at
least 10000, and otherwise adopts the new dimensions in the session
state (used by all later updates) and immediately replies with a
FramebufferUpdate of exactly one rectangle carrying encoding -308
(ExtendedDesktopSize, bytes `FF FF FE CC`) and the new geometry. -/
theorem set_desktop_size_behaviour (s : SessionState) (nw nh nscreens : Nat)
    (screens rest : List Nat) (hw : nw < 65536) (hh : nh < 65536)
    (hsc : screens.length = 16 * nscreens) :
    processMessage s
        ([251, 0] ++ u16be nw ++ u16be nh ++ [nscreens, 0] ++ screens ++ rest) =
      if 10000 ≤ nw ∨ 10000 ≤ nh then
        Except.error ("illegal resolution: " ++ toString nw ++ "x" ++
          toString nh)
      else
        Except.ok ({ s with gw := nw, gh := nh }, rest,
          [0, 0, 0, 1, 0, 1, 0, 0] ++ u16be nw ++ u16be nh ++
            [255, 255, 254, 204, 1, 0, 0, 0, 0, 0, 0, 0, 0, 0, 0, 0] ++
            u16be nw ++ u16be nh ++ [0, 0, 0, 0]) := by
  have hin : [251, 0] ++ u16be nw ++ u16be nh ++ [nscreens, 0] ++ screens ++
      rest =
      251 :: 0 :: (u16be nw ++ (u16be nh ++ (nscreens :: 0 :: (screens ++
        rest)))) := by
    simp
  rw [hin]
  simp only [processMessage, readU8, readU16_u16be_mod,
    readScreens_append nscreens screens rest hsc,
    Nat.mod_eq_of_lt hw, Nat.mod_eq_of_lt hh]
  norm_num
  split <;> rfl

/-- Witness for C10: a resize to 2 by 2 with one screen block. -/
theorem set_desktop_size_behaviour_witness :
    2 < 65536 ∧ (List.replicate 16 0).length = 16 * 1 ∧
    processMessage (initSession 0 [])
        ([251, 0] ++ u16be 2 ++ u16be 2 ++ [1, 0] ++
          List.replicate 16 0 ++ []) =
      Except.ok (⟨false, 2, 2, 0, true, 0, []⟩, [],
        [0, 0, 0, 1, 0, 1, 0, 0, 0, 2, 0, 2, 255, 255, 254, 204, 1, 0, 0, 0,
          0, 0, 0, 0, 0, 0, 0, 0, 0, 2, 0, 2, 0, 0, 0, 0]) :=
  ⟨by decide, by decide,
    set_desktop_size_behaviour (initSession 0 []) 2 2 1
      (List.replicate 16 0) [] (by decide) (by decide) (by decide)⟩

/-- Witness for C9 on a concrete 2-by-2 framebuffer. -/
theorem framebuffer_put_get_witness :
    1 < (Framebuffer.new 2 2).width ∧ 1 < (Framebuffer.new 2 2).height ∧
    (Framebuffer.new 2 2).region.length =
      (Framebuffer.new 2 2).width * (Framebuffer.new 2 2).height ∧
    ((Framebuffer.new 2 2).put 1 1 9 200 255).get 1 1 = some (9, 200, 255) :=
  ⟨by decide, by decide, by decide,
    framebuffer_put_get (Framebuffer.new 2 2) 1 1 9 200 255 (by decide)
      (by decide) (by decide) (by decide) (by decide) (by decide)⟩

end Jvnc
